import Mathlib

/-!
Verification development for the research-hub orchestration engine
(packages/research_hub/src/orchestrator.py, models/research_types.py,
agents/base_agent.py, config.py).

Python strings are modelled by Lean strings; the Python string helpers
used by the code (strip, lower, startswith, substring containment,
whitespace split) are embedded as executable functions over the
underlying character list.  Python floats are modelled by rationals.
Python dicts keyed by research type are modelled by association lists
with insert-or-overwrite assignment, which preserves the insertion
order and key-uniqueness semantics of dict assignment.
-/

namespace ResearchHub

/-- Python list-of-characters check: does the first list start with the second? -/
def startsWithChars : List Char → List Char → Bool
  | _, [] => true
  | [], _ :: _ => false
  | c :: cs, d :: ds => c == d && startsWithChars cs ds

/-- Python substring containment (the in operator on str): does the needle occur
contiguously in the haystack? -/
def containsChars : List Char → List Char → Bool
  | [], needle => needle.isEmpty
  | c :: rest, needle => startsWithChars (c :: rest) needle || containsChars rest needle

/-- Python str.lower applied characterwise. -/
def lowerChars (l : List Char) : List Char := l.map Char.toLower

/-- Python str.strip: remove leading and trailing whitespace. -/
def trimChars (l : List Char) : List Char :=
  ((l.dropWhile Char.isWhitespace).reverse.dropWhile Char.isWhitespace).reverse

/-- Python str.split with no argument: split on whitespace runs, dropping empty
tokens.  The accumulator holds the current token reversed. -/
def splitWsAux : List Char → List Char → List (List Char)
  | [], cur => if cur.isEmpty then [] else [cur.reverse]
  | c :: rest, cur =>
    if c.isWhitespace then
      (if cur.isEmpty then splitWsAux rest [] else cur.reverse :: splitWsAux rest [])
    else splitWsAux rest (c :: cur)

/-- Python str.lower. -/
def pyLower (s : String) : String := ⟨lowerChars s.data⟩

/-- Python str.strip. -/
def pyTrim (s : String) : String := ⟨trimChars s.data⟩

/-- Python str.startswith. -/
def pyStarts (s pre : String) : Bool := startsWithChars s.data pre.data

/-- Python needle in haystack for strings. -/
def pyContains (hay needle : String) : Bool := containsChars hay.data needle.data

/-- Python str.split with no argument. -/
def pySplit (s : String) : List String := (splitWsAux s.data []).map (fun l => ⟨l⟩)

/-- ResearchType enum from models/research_types.py lines 15-22. -/
inductive ResearchType where
  | competitor
  | market
  | video_ad
  | social_media
  | audience
  | trend
deriving DecidableEq, Repr

/-- Python value attribute of the str-valued ResearchType enum. -/
def researchTypeStr : ResearchType → String
  | .competitor => "competitor"
  | .market => "market"
  | .video_ad => "video_ad"
  | .social_media => "social_media"
  | .audience => "audience"
  | .trend => "trend"

/-- Python str() and format() rendering of a ResearchType member as it is
interpolated by the f-strings at orchestrator.py lines 195 and 227: since
Python 3.11, a mixed-in (str, Enum) member formats as its class-qualified
member name, not as its value. -/
def researchTypeRepr : ResearchType → String
  | .competitor => "ResearchType.COMPETITOR"
  | .market => "ResearchType.MARKET"
  | .video_ad => "ResearchType.VIDEO_AD"
  | .social_media => "ResearchType.SOCIAL_MEDIA"
  | .audience => "ResearchType.AUDIENCE"
  | .trend => "ResearchType.TREND"

/-- ResearchStatus enum from models/research_types.py lines 25-30. -/
inductive ResearchStatus where
  | pending
  | processing
  | completed
  | failed
deriving DecidableEq, Repr

/-- Python value attribute of the str-valued ResearchStatus enum. -/
def researchStatusStr : ResearchStatus → String
  | .pending => "pending"
  | .processing => "processing"
  | .completed => "completed"
  | .failed => "failed"

/-- InputType enum from models/research_types.py lines 33-39. -/
inductive InputType where
  | url
  | text
  | brand_name
  | topic
  | video_url
deriving DecidableEq, Repr

/-- ResearchSource dataclass from models/research_types.py lines 42-51.
The retrieved_at wall-clock timestamp is omitted (no behavioral weight). -/
structure ResearchSource where
  url : String
  title : String
  source_type : String
  relevance_score : Option Rat := none
  snippet : Option String := none
deriving DecidableEq

/-- ResearchInput dataclass from models/research_types.py lines 64-69.
The opaque context dict is modelled as an optional key-value list. -/
structure ResearchInput where
  query : String
  input_type : InputType
  context : Option (List (String × String)) := none
deriving DecidableEq

/-- ResearchResult dataclass from models/research_types.py lines 80-92.
The opaque analysis_data dict is modelled as a key-value list of strings;
the agent_trace dict content is abstracted to a unit marker. -/
structure ResearchResult where
  research_type : ResearchType
  analysis_data : List (String × String)
  summary : String
  sources : List ResearchSource
  confidence_score : Rat
  tools_used : List String
  processing_time_ms : Nat
  status : ResearchStatus := .completed
  agent_trace : Option Unit := none
  error_message : Option String := none
deriving DecidableEq

/-- RESEARCH_TIMEOUT_SECONDS from config.py line 67 (env default 60). -/
def RESEARCH_TIMEOUT_SECONDS : Nat := 60

/-- MAX_CONCURRENT_AGENTS from config.py line 70 (env default 3). -/
def MAX_CONCURRENT_AGENTS : Nat := 3

/-- Python expression timeout_seconds or RESEARCH_TIMEOUT_SECONDS used at
orchestrator.py lines 128 and 180: None and the falsy 0 both fall back to
the configured default. -/
def timeoutOrDefault : Option Nat → Nat
  | none => RESEARCH_TIMEOUT_SECONDS
  | some t => if t == 0 then RESEARCH_TIMEOUT_SECONDS else t

/-- ResearchOrchestrator.detect_input_type, orchestrator.py lines 72-99.
The query is stripped and lowercased, then the URL check, the topic keyword
check, and the token-count check run in order. -/
def detect_input_type (query : String) : InputType :=
  let q := pyLower (pyTrim query)
  if pyStarts q "http://" || pyStarts q "https://" || pyStarts q "www." then
    if pyContains q "youtube.com" || pyContains q "youtu.be" then InputType.video_url
    else InputType.url
  else if ["trend", "trends", "market for", "industry"].any (fun w => pyContains q w) then
    InputType.topic
  else if (pySplit q).length ≤ 3 then
    InputType.brand_name
  else
    InputType.text

/-- ResearchOrchestrator._create_error_result, orchestrator.py lines 325-341. -/
def create_error_result (research_type : ResearchType) (error_message : String) :
    ResearchResult :=
  { research_type := research_type
    analysis_data := [("error", error_message)]
    summary := "Research failed: " ++ error_message
    sources := []
    confidence_score := 0
    tools_used := []
    processing_time_ms := 0
    status := ResearchStatus.failed
    error_message := some error_message }

/-- Outcome of one awaited agent research call as observed by the orchestrator
at an asyncio.wait_for site: the call returns a result, the deadline expires
(asyncio.TimeoutError), or some other exception with the given text escapes. -/
inductive AgentOutcome where
  | ok (r : ResearchResult)
  | timeout
  | exc (msg : String)

/-- One unit of work of the batch path: the body of run_with_semaphore,
orchestrator.py lines 221-245, given which categories have a registered agent
and the outcome each agent call would produce.  The semaphore itself only
schedules the work and does not change the produced value. -/
def run_with_semaphore (registered : ResearchType → Bool)
    (outcome : ResearchType → AgentOutcome) (research_type : ResearchType) :
    ResearchResult :=
  if registered research_type = false then
    create_error_result research_type
      ("Unknown research type: " ++ researchTypeRepr research_type)
  else
    match outcome research_type with
    | AgentOutcome.ok r => r
    | AgentOutcome.timeout => create_error_result research_type "Research timed out"
    | AgentOutcome.exc e => create_error_result research_type e

/-- ResearchOrchestrator.execute_single, orchestrator.py lines 159-207.
The agent call outcome is a function of the constructed ResearchInput, the
resolved timeout, and the research type. -/
def execute_single (registered : ResearchType → Bool)
    (call : ResearchInput → Nat → ResearchType → AgentOutcome)
    (research_type : ResearchType) (query : String)
    (input_type : Option InputType) (context : Option (List (String × String)))
    (timeout_seconds : Option Nat) : ResearchResult :=
  let timeout := timeoutOrDefault timeout_seconds
  let it := match input_type with
    | none => detect_input_type query
    | some x => x
  let input_data : ResearchInput := { query := query, input_type := it, context := context }
  if registered research_type = false then
    create_error_result research_type
      ("Unknown research type: " ++ researchTypeRepr research_type)
  else
    match call input_data timeout research_type with
    | AgentOutcome.ok r => r
    | AgentOutcome.timeout => create_error_result research_type "Research timed out"
    | AgentOutcome.exc e => create_error_result research_type e

/-- Python dict assignment d[k] = v on an association list: overwrite in place
if the key is present, else append at the end. -/
def dictInsert {α β : Type} [DecidableEq α] : List (α × β) → α → β → List (α × β)
  | [], k, v => [(k, v)]
  | (k1, v1) :: rest, k, v =>
    if k1 = k then (k, v) :: rest else (k1, v1) :: dictInsert rest k v

/-- Python dict lookup d.get(k) on an association list. -/
def dictLookup {α β : Type} [DecidableEq α] : List (α × β) → α → Option β
  | [], _ => none
  | (k1, v1) :: rest, k => if k1 = k then some v1 else dictLookup rest k

/-- ResearchOrchestrator._execute_parallel, orchestrator.py lines 209-261:
one run_with_semaphore task per requested type, gathered in task order into
the results dict.  The tasks never raise, so the isinstance-Exception guard
at line 255 drops nothing. -/
def execute_parallel (registered : ResearchType → Bool)
    (outcome : ResearchType → AgentOutcome) (research_types : List ResearchType) :
    List (ResearchType × ResearchResult) :=
  (research_types.map (fun rt => (rt, run_with_semaphore registered outcome rt))).foldl
    (fun m p => dictInsert m p.1 p.2) []

/-- ResearchOrchestrator._save_results, orchestrator.py lines 263-285: one
best-effort repository create per result; an exception from title generation
or the create call is caught per item and turned into a log line. -/
def saveResultsHook (repoCreate : ResearchType → ResearchResult → Except String Unit)
    (results : List (ResearchType × ResearchResult)) : List String :=
  results.foldl
    (fun logs p =>
      match repoCreate p.1 p.2 with
      | Except.ok _ => logs
      | Except.error e =>
        logs ++ ["Failed to save " ++ researchTypeStr p.1 ++ " result: " ++ e])
    []

/-- ResearchOrchestrator.execute_research, orchestrator.py lines 101-157:
resolve the timeout, classify the input if no type was given, build one
ResearchInput, fan out via execute_parallel, then run the best-effort
persistence hook when enabled and configured.  The function returns the
results map together with the persistence log lines. -/
def execute_research (registered : ResearchType → Bool)
    (call : ResearchInput → Nat → ResearchType → AgentOutcome)
    (repoConfigured : Bool)
    (repoCreate : ResearchType → ResearchResult → Except String Unit)
    (project_id user_id : String)
    (research_types : List ResearchType) (query : String)
    (input_type : Option InputType) (context : Option (List (String × String)))
    (timeout_seconds : Option Nat) (save_results : Bool) :
    List (ResearchType × ResearchResult) × List String :=
  let timeout := timeoutOrDefault timeout_seconds
  let it := match input_type with
    | none => detect_input_type query
    | some x => x
  let input_data : ResearchInput := { query := query, input_type := it, context := context }
  let results := execute_parallel registered (call input_data timeout) research_types
  let logs :=
    if save_results && repoConfigured then saveResultsHook repoCreate results
    else []
  (results, logs)

/-- Entry of the by_type dict built by synthesize_results (orchestrator.py
lines 379-384). -/
structure ByTypeEntry where
  status : String
  summary : String
  confidence : Rat
  sources_count : Nat
deriving DecidableEq

/-- Synthesis dict built by synthesize_results (orchestrator.py lines 356-365). -/
structure Synthesis where
  total_research_types : Nat
  successful : Nat
  failed : Nat
  total_sources : Nat
  average_confidence : Rat
  total_processing_time_ms : Nat
  key_findings : List (String × String)
  by_type : List (String × ByTypeEntry)
deriving DecidableEq

/-- Initial synthesis dict of orchestrator.py lines 356-365. -/
def synthInit (results : List (ResearchType × ResearchResult)) : Synthesis :=
  { total_research_types := results.length
    successful := 0
    failed := 0
    total_sources := 0
    average_confidence := 0
    total_processing_time_ms := 0
    key_findings := []
    by_type := [] }

/-- One iteration of the loop of synthesize_results (orchestrator.py lines
369-391), threading the synthesis dict and the running confidence sum. -/
def synthStep (acc : Synthesis × Rat) (p : ResearchType × ResearchResult) :
    Synthesis × Rat :=
  let syn := acc.1
  let csum := acc.2
  let r := p.2
  let syn1 :=
    if r.status = ResearchStatus.completed then
      { syn with successful := syn.successful + 1 }
    else
      { syn with failed := syn.failed + 1 }
  let csum1 :=
    if r.status = ResearchStatus.completed then csum + r.confidence_score else csum
  let syn2 :=
    { syn1 with
      total_sources := syn1.total_sources + r.sources.length
      total_processing_time_ms := syn1.total_processing_time_ms + r.processing_time_ms
      by_type := dictInsert syn1.by_type (researchTypeStr p.1)
        { status := researchStatusStr r.status
          summary := r.summary
          confidence := r.confidence_score
          sources_count := r.sources.length } }
  if r.summary ≠ "" ∧ r.status = ResearchStatus.completed then
    ({ syn2 with key_findings := syn2.key_findings ++ [(researchTypeStr p.1, r.summary)] },
      csum1)
  else
    (syn2, csum1)

/-- ResearchOrchestrator.synthesize_results, orchestrator.py lines 343-396:
fold the loop body over the result items, then set the average confidence
from the confidence sum when at least one result succeeded. -/
def synthesize_results (results : List (ResearchType × ResearchResult)) : Synthesis :=
  let acc := results.foldl synthStep (synthInit results, 0)
  if acc.1.successful > 0 then
    { acc.1 with average_confidence := acc.2 / (acc.1.successful : Rat) }
  else
    acc.1

/-- Internal course of one BaseResearchAgent.research call (base_agent.py
lines 249-356): the configuration guard fires, or the prompt-model-parse
pipeline completes with the given pieces, or some step raises an exception
with the given text. -/
inductive AgentRun where
  | notConfigured
  | completes (analysis : List (String × String)) (summary : String)
      (sources : List ResearchSource) (confidence : Rat) (ptime : Nat)
  | raises (msg : String) (ptime : Nat)

/-- BaseResearchAgent.research, base_agent.py lines 249-356, with tracing
disabled (ENABLE_AGENT_TRACING default false): the three return sites of the
method, parametrized by how the internal pipeline went. -/
def baseAgentResearch (research_type : ResearchType) (required_tools : List String) :
    AgentRun → ResearchResult
  | AgentRun.notConfigured =>
    { research_type := research_type
      analysis_data := [("error", "Agent not configured")]
      summary := "Research failed: Agent not properly configured"
      sources := []
      confidence_score := 0
      tools_used := []
      processing_time_ms := 0
      status := ResearchStatus.failed
      error_message := some "GOOGLE_CLOUD_PROJECT not set" }
  | AgentRun.completes analysis summary sources confidence ptime =>
    { research_type := research_type
      analysis_data := analysis
      summary := summary
      sources := sources
      confidence_score := confidence
      tools_used := required_tools
      processing_time_ms := ptime
      status := ResearchStatus.completed
      agent_trace := none
      error_message := none }
  | AgentRun.raises msg ptime =>
    { research_type := research_type
      analysis_data := [("error", msg)]
      summary := "Research failed: " ++ msg
      sources := []
      confidence_score := 0
      tools_used := required_tools
      processing_time_ms := ptime
      status := ResearchStatus.failed
      error_message := some msg
      agent_trace := none }

/-- Modelled from the spec: the classifier cascade exactly as the claim and
section 4.4 word it — trim whitespace, then match the three URL markers on
the trimmed string as written, with case-insensitivity prescribed only for
the keyword matching of step 3.  This is the claim-side definition to be
compared with detect_input_type, which lowercases before every check. -/
def detectInputTypeClaimed (query : String) : InputType :=
  let t := pyTrim query
  if pyStarts t "http://" || pyStarts t "https://" || pyStarts t "www." then
    if pyContains t "youtube.com" || pyContains t "youtu.be" then InputType.video_url
    else InputType.url
  else if ["trend", "trends", "market for", "industry"].any
      (fun w => pyContains (pyLower t) w) then
    InputType.topic
  else if (pySplit t).length ≤ 3 then
    InputType.brand_name
  else
    InputType.text

/-- Phase of one run_with_semaphore task of a batch: before the semaphore
admitted it, inside the async-with block awaiting the agent call, or finished
with the semaphore released. -/
inductive TaskPhase where
  | waiting
  | running
  | done
deriving DecidableEq, Repr

/-- State of one _execute_parallel call: the internal counter of the
asyncio.Semaphore created at orchestrator.py line 219 plus the phase of each
scheduled task. -/
structure GateState where
  permits : Nat
  tasks : List TaskPhase
deriving DecidableEq, Repr

/-- Number of agent research calls currently in flight: tasks inside the
async-with block of run_with_semaphore. -/
def inFlight (s : GateState) : Nat :=
  s.tasks.countP (fun t => t == TaskPhase.running)

/-- Initial state of a batch of the given size: the semaphore counter starts
at the configured bound and every task awaits admission. -/
def gateInit (bound n : Nat) : GateState :=
  { permits := bound, tasks := List.replicate n TaskPhase.waiting }

/-- Interleaving semantics of the semaphore-gated fan-out: acquire admits a
waiting task only while the counter is positive and decrements it (asyncio
Semaphore.acquire); release ends a running task and increments the counter
(Semaphore.release on leaving the async-with block, on every exit path). -/
inductive GateStep : GateState → GateState → Prop
  | acquire (s : GateState) (i : Nat) (hi : s.tasks[i]? = some TaskPhase.waiting)
      (hp : 0 < s.permits) :
      GateStep s { permits := s.permits - 1, tasks := s.tasks.set i TaskPhase.running }
  | release (s : GateState) (i : Nat) (hi : s.tasks[i]? = some TaskPhase.running) :
      GateStep s { permits := s.permits + 1, tasks := s.tasks.set i TaskPhase.done }

/-- States one _execute_parallel call with the given semaphore bound and task
count can reach. -/
inductive GateReachable (bound n : Nat) : GateState → Prop
  | init : GateReachable bound n (gateInit bound n)
  | step {s s' : GateState} : GateReachable bound n s → GateStep s s' →
      GateReachable bound n s'

/-- Lookup after dict assignment: the assigned key reads back the new value
and every other key is untouched. -/
theorem dictLookup_dictInsert {α β : Type} [DecidableEq α]
    (m : List (α × β)) (k k2 : α) (v : β) :
    dictLookup (dictInsert m k v) k2 = if k = k2 then some v else dictLookup m k2 := by
  induction m with
  | nil => simp only [dictInsert, dictLookup]
  | cons p rest ih =>
    obtain ⟨k1, v1⟩ := p
    by_cases h1 : k1 = k
    · subst h1
      simp only [dictInsert, if_pos rfl, dictLookup]
      by_cases h2 : k1 = k2 <;> simp [h2]
    · simp only [dictInsert, if_neg h1, dictLookup, ih]
      by_cases h2 : k1 = k2
      · subst h2
        simp [Ne.symm h1]
      · simp [h2]

/-- Lookup succeeds exactly on the keys of the association list. -/
theorem dictLookup_isSome_iff {α β : Type} [DecidableEq α]
    (m : List (α × β)) (k : α) :
    (dictLookup m k).isSome = true ↔ k ∈ m.map Prod.fst := by
  induction m with
  | nil => simp [dictLookup]
  | cons p rest ih =>
    obtain ⟨k1, v1⟩ := p
    by_cases h : k1 = k
    · subst h; simp [dictLookup]
    · simp [dictLookup, h, ih, Ne.symm h]

/-- Keys after dict assignment: unchanged when the key was present, else the
key is appended. -/
theorem keys_dictInsert {α β : Type} [DecidableEq α]
    (m : List (α × β)) (k : α) (v : β) :
    (dictInsert m k v).map Prod.fst =
      if k ∈ m.map Prod.fst then m.map Prod.fst else m.map Prod.fst ++ [k] := by
  induction m with
  | nil => simp [dictInsert]
  | cons p rest ih =>
    obtain ⟨k1, v1⟩ := p
    by_cases h : k1 = k
    · subst h; simp [dictInsert]
    · simp only [dictInsert, if_neg h, List.map_cons, ih, List.mem_cons]
      by_cases h2 : k ∈ rest.map Prod.fst
      · simp [h2, Ne.symm h]
      · simp [h2, Ne.symm h]

/-- Dict assignment preserves key uniqueness. -/
theorem nodupKeys_dictInsert {α β : Type} [DecidableEq α]
    (m : List (α × β)) (k : α) (v : β) (h : (m.map Prod.fst).Nodup) :
    ((dictInsert m k v).map Prod.fst).Nodup := by
  rw [keys_dictInsert]
  by_cases hm : k ∈ m.map Prod.fst
  · simpa [hm]
  · simp [hm, List.nodup_append, h]

/-- Folding dict assignments of computed values: any key assigned along the
fold reads back its computed value, any other key falls through. -/
theorem dictLookup_fold_insert {α β : Type} [DecidableEq α] (g : α → β) :
    ∀ (ks : List α) (m : List (α × β)) (c : α),
      dictLookup (ks.foldl (fun acc k => dictInsert acc k (g k)) m) c =
        if c ∈ ks then some (g c) else dictLookup m c := by
  intro ks
  induction ks with
  | nil => intro m c; simp
  | cons k rest ih =>
    intro m c
    simp only [List.foldl_cons, ih, dictLookup_dictInsert, List.mem_cons]
    by_cases h1 : c ∈ rest
    · simp [h1]
    · by_cases h2 : k = c
      · subst h2; simp [h1]
      · simp [h1, h2, Ne.symm h2]

/-- Folding dict assignments preserves key uniqueness. -/
theorem foldl_dictInsert_nodupKeys {α β : Type} [DecidableEq α] :
    ∀ (ps : List (α × β)) (m : List (α × β)), (m.map Prod.fst).Nodup →
      ((ps.foldl (fun acc p => dictInsert acc p.1 p.2) m).map Prod.fst).Nodup := by
  intro ps
  induction ps with
  | nil => intro m h; simpa
  | cons p rest ih => intro m h; exact ih _ (nodupKeys_dictInsert _ _ _ h)

/-- Characterization of the batch result dict: a requested category reads back
the value its unit of work produced, an unrequested one is absent. -/
theorem execute_parallel_lookup (registered : ResearchType → Bool)
    (outcome : ResearchType → AgentOutcome) (research_types : List ResearchType)
    (c : ResearchType) :
    dictLookup (execute_parallel registered outcome research_types) c =
      if c ∈ research_types then some (run_with_semaphore registered outcome c)
      else none := by
  unfold execute_parallel
  rw [List.foldl_map]
  rw [dictLookup_fold_insert (fun rt => run_with_semaphore registered outcome rt)]
  simp [dictLookup]

/-- Keys of the batch result dict are exactly the requested categories. -/
theorem execute_parallel_keys (registered : ResearchType → Bool)
    (outcome : ResearchType → AgentOutcome) (research_types : List ResearchType)
    (c : ResearchType) :
    c ∈ (execute_parallel registered outcome research_types).map Prod.fst ↔
      c ∈ research_types := by
  rw [← dictLookup_isSome_iff, execute_parallel_lookup]
  by_cases h : c ∈ research_types <;> simp [h]

/-- Keys of the batch result dict are unique. -/
theorem execute_parallel_nodup_keys (registered : ResearchType → Bool)
    (outcome : ResearchType → AgentOutcome) (research_types : List ResearchType) :
    ((execute_parallel registered outcome research_types).map Prod.fst).Nodup := by
  unfold execute_parallel
  exact foldl_dictInsert_nodupKeys _ [] (by simp)

/-- Membership of the filtered request list used for sibling-isolation
statements: removing one category leaves every other membership unchanged. -/
theorem mem_filter_ne {α : Type} [DecidableEq α] (l : List α) (c d : α) (hd : d ≠ c) :
    d ∈ l.filter (fun x => !(x == c)) ↔ d ∈ l := by
  simp [List.mem_filter, hd]

/-- C1: for every non-empty list of requested research categories (duplicates
collapsing to one), execute_research returns a map containing exactly one
ResearchResult per distinct requested category — the keys are unique and are
exactly the distinct requested categories — regardless of which individual
tasks fail, time out, or raise (the agent behavior is universally
quantified). -/
theorem C1_exactly_one_result_per_requested_category
    (registered : ResearchType → Bool)
    (call : ResearchInput → Nat → ResearchType → AgentOutcome)
    (repoConfigured : Bool)
    (repoCreate : ResearchType → ResearchResult → Except String Unit)
    (project_id user_id : String) (research_types : List ResearchType)
    (query : String) (input_type : Option InputType)
    (context : Option (List (String × String))) (timeout_seconds : Option Nat)
    (save : Bool) (hne : research_types ≠ []) :
    (((execute_research registered call repoConfigured repoCreate project_id user_id
        research_types query input_type context timeout_seconds save).1.map
          Prod.fst).Nodup) ∧
    ∀ c : ResearchType,
      c ∈ (execute_research registered call repoConfigured repoCreate project_id user_id
        research_types query input_type context timeout_seconds save).1.map Prod.fst ↔
      c ∈ research_types := by
  constructor
  · exact execute_parallel_nodup_keys _ _ _
  · intro c
    exact execute_parallel_keys _ _ _ _

/-- C1 witness: a concrete batch with a duplicated category yields unique keys
that contain each requested category and nothing else. -/
theorem C1_witness :
    (((execute_research (fun _ => true) (fun _ _ _ => AgentOutcome.timeout) false
        (fun _ _ => Except.ok ()) "p" "u"
        [ResearchType.competitor, ResearchType.market, ResearchType.competitor]
        "q" none none none false).1.map Prod.fst).Nodup) ∧
    ResearchType.competitor ∈
      (execute_research (fun _ => true) (fun _ _ _ => AgentOutcome.timeout) false
        (fun _ _ => Except.ok ()) "p" "u"
        [ResearchType.competitor, ResearchType.market, ResearchType.competitor]
        "q" none none none false).1.map Prod.fst ∧
    ResearchType.trend ∉
      (execute_research (fun _ => true) (fun _ _ _ => AgentOutcome.timeout) false
        (fun _ _ => Except.ok ()) "p" "u"
        [ResearchType.competitor, ResearchType.market, ResearchType.competitor]
        "q" none none none false).1.map Prod.fst := by
  have h := C1_exactly_one_result_per_requested_category (fun _ => true)
    (fun _ _ _ => AgentOutcome.timeout) false (fun _ _ => Except.ok ()) "p" "u"
    [ResearchType.competitor, ResearchType.market, ResearchType.competitor]
    "q" none none none false (by simp)
  refine ⟨h.1, (h.2 ResearchType.competitor).mpr (by simp), fun hmem => ?_⟩
  have := (h.2 ResearchType.trend).mp hmem
  simp at this

/-- C2 counterexample: when the competitor agent times out in a concrete
batch, the produced result carries the error string Research timed out, not
the claimed literal timed out. -/
theorem C2_counterexample :
    dictLookup (execute_parallel (fun _ => true) (fun _ => AgentOutcome.timeout)
        [ResearchType.competitor, ResearchType.market]) ResearchType.competitor =
      some (create_error_result ResearchType.competitor "Research timed out") ∧
    (create_error_result ResearchType.competitor "Research timed out").error_message ≠
      some "timed out" := by
  refine ⟨rfl, ?_⟩
  intro h
  simp only [create_error_result, Option.some.injEq] at h
  exact absurd h (by decide)

/-- C2 (amended): if one registered agent times out, the batch produces for
that category a Failed result whose error string is Research timed out (which
contains the spec phrase timed out as a substring), and every sibling
category reads back exactly what it would read in the batch with the
timed-out category removed. -/
theorem C2_timeout_isolated_with_actual_message
    (registered : ResearchType → Bool) (outcome : ResearchType → AgentOutcome)
    (research_types : List ResearchType) (c : ResearchType)
    (hreg : registered c = true) (hto : outcome c = AgentOutcome.timeout) :
    (c ∈ research_types →
      dictLookup (execute_parallel registered outcome research_types) c =
        some (create_error_result c "Research timed out")) ∧
    (create_error_result c "Research timed out").status = ResearchStatus.failed ∧
    (create_error_result c "Research timed out").error_message =
      some "Research timed out" ∧
    pyContains "Research timed out" "timed out" = true ∧
    ∀ d : ResearchType, d ≠ c →
      dictLookup (execute_parallel registered outcome research_types) d =
        dictLookup (execute_parallel registered outcome
          (research_types.filter (fun x => !(x == c)))) d := by
  refine ⟨?_, rfl, rfl, by decide, ?_⟩
  · intro hc
    rw [execute_parallel_lookup]
    simp [hc, run_with_semaphore, hreg, hto]
  · intro d hd
    rw [execute_parallel_lookup, execute_parallel_lookup]
    rw [if_congr (Iff.symm (mem_filter_ne research_types c d hd)) rfl rfl]

/-- C2 witness: concrete instantiation of the amended timeout theorem at a
two-category batch where the competitor agent times out. -/
theorem C2_witness :
    dictLookup (execute_parallel (fun _ => true)
        (fun rt => if rt = ResearchType.competitor then AgentOutcome.timeout
          else AgentOutcome.exc "boom")
        [ResearchType.competitor, ResearchType.market]) ResearchType.competitor =
      some (create_error_result ResearchType.competitor "Research timed out") ∧
    pyContains "Research timed out" "timed out" = true ∧
    dictLookup (execute_parallel (fun _ => true)
        (fun rt => if rt = ResearchType.competitor then AgentOutcome.timeout
          else AgentOutcome.exc "boom")
        [ResearchType.competitor, ResearchType.market]) ResearchType.market =
      dictLookup (execute_parallel (fun _ => true)
        (fun rt => if rt = ResearchType.competitor then AgentOutcome.timeout
          else AgentOutcome.exc "boom")
        ([ResearchType.competitor, ResearchType.market].filter
          (fun x => !(x == ResearchType.competitor)))) ResearchType.market := by
  have h := C2_timeout_isolated_with_actual_message (fun _ => true)
    (fun rt => if rt = ResearchType.competitor then AgentOutcome.timeout
      else AgentOutcome.exc "boom")
    [ResearchType.competitor, ResearchType.market] ResearchType.competitor rfl (by simp)
  exact ⟨h.1 (by simp), h.2.2.2.1, h.2.2.2.2 ResearchType.market (by simp)⟩

/-- C3 counterexample: requesting an unregistered category yields the error
string Unknown research type: ResearchType.COMPETITOR (the f-string renders
the class-qualified enum member name on Python 3.11 and later), not the
claimed literal unknown category. -/
theorem C3_counterexample :
    (execute_single (fun _ => false) (fun _ _ _ => AgentOutcome.timeout)
        ResearchType.competitor "Nike" none none none).error_message =
      some "Unknown research type: ResearchType.COMPETITOR" ∧
    some ("Unknown research type: ResearchType.COMPETITOR" : String) ≠
      some "unknown category" := by
  refine ⟨rfl, ?_⟩
  intro h
  simp only [Option.some.injEq] at h
  exact absurd h (by decide)

/-- C3 (amended): for every requested category with no registered agent, both
the batch path and the single path produce a Failed result with error string
Unknown research type followed by the rendering of the enum member (its
class-qualified name on Python 3.11 and later), the produced result does not
depend on any agent behavior (no agent is invoked), and every other requested
entry reads back what it reads in the batch with the unregistered category
removed. -/
theorem C3_unknown_category_actual_message
    (registered : ResearchType → Bool) (outcome : ResearchType → AgentOutcome)
    (call : ResearchInput → Nat → ResearchType → AgentOutcome)
    (research_types : List ResearchType) (c : ResearchType)
    (query : String) (input_type : Option InputType)
    (context : Option (List (String × String))) (timeout_seconds : Option Nat)
    (hreg : registered c = false) :
    (c ∈ research_types →
      dictLookup (execute_parallel registered outcome research_types) c =
        some (create_error_result c
          ("Unknown research type: " ++ researchTypeRepr c))) ∧
    execute_single registered call c query input_type context timeout_seconds =
      create_error_result c ("Unknown research type: " ++ researchTypeRepr c) ∧
    (create_error_result c ("Unknown research type: " ++ researchTypeRepr c)).status =
      ResearchStatus.failed ∧
    (∀ outcome2 : ResearchType → AgentOutcome,
      run_with_semaphore registered outcome c =
        run_with_semaphore registered outcome2 c) ∧
    ∀ d : ResearchType, d ≠ c →
      dictLookup (execute_parallel registered outcome research_types) d =
        dictLookup (execute_parallel registered outcome
          (research_types.filter (fun x => !(x == c)))) d := by
  refine ⟨?_, ?_, rfl, ?_, ?_⟩
  · intro hc
    rw [execute_parallel_lookup]
    simp [hc, run_with_semaphore, hreg]
  · simp [execute_single, hreg]
  · intro outcome2
    simp [run_with_semaphore, hreg]
  · intro d hd
    rw [execute_parallel_lookup, execute_parallel_lookup]
    rw [if_congr (Iff.symm (mem_filter_ne research_types c d hd)) rfl rfl]

/-- C3 witness: concrete instantiation of the amended unknown-category theorem
with only the competitor agent missing from the registry. -/
theorem C3_witness :
    dictLookup (execute_parallel (fun rt => !(rt == ResearchType.competitor))
        (fun _ => AgentOutcome.timeout)
        [ResearchType.competitor, ResearchType.market]) ResearchType.competitor =
      some (create_error_result ResearchType.competitor
        ("Unknown research type: " ++ researchTypeRepr ResearchType.competitor)) ∧
    execute_single (fun rt => !(rt == ResearchType.competitor))
        (fun _ _ _ => AgentOutcome.timeout) ResearchType.competitor "Nike"
        none none none =
      create_error_result ResearchType.competitor
        ("Unknown research type: " ++ researchTypeRepr ResearchType.competitor) ∧
    dictLookup (execute_parallel (fun rt => !(rt == ResearchType.competitor))
        (fun _ => AgentOutcome.timeout)
        [ResearchType.competitor, ResearchType.market]) ResearchType.market =
      dictLookup (execute_parallel (fun rt => !(rt == ResearchType.competitor))
        (fun _ => AgentOutcome.timeout)
        ([ResearchType.competitor, ResearchType.market].filter
          (fun x => !(x == ResearchType.competitor)))) ResearchType.market := by
  have h := C3_unknown_category_actual_message
    (fun rt => !(rt == ResearchType.competitor)) (fun _ => AgentOutcome.timeout)
    (fun _ _ _ => AgentOutcome.timeout) [ResearchType.competitor, ResearchType.market]
    ResearchType.competitor "Nike" none none none (by simp)
  exact ⟨h.1 (by simp), h.2.1, h.2.2.2.2 ResearchType.market (by simp)⟩

/-- C7: the single-category path is behaviorally equivalent to the per-category
unit of the batch path: execute_single equals run_with_semaphore applied to
the same constructed input and resolved timeout, and the batch entry for any
requested category is exactly the execute_single result for it. -/
theorem C7_single_equals_batch_unit
    (registered : ResearchType → Bool)
    (call : ResearchInput → Nat → ResearchType → AgentOutcome)
    (repoConfigured : Bool)
    (repoCreate : ResearchType → ResearchResult → Except String Unit)
    (project_id user_id : String) (research_types : List ResearchType)
    (c : ResearchType) (query : String) (input_type : Option InputType)
    (context : Option (List (String × String))) (timeout_seconds : Option Nat)
    (save : Bool) (hc : c ∈ research_types) :
    execute_single registered call c query input_type context timeout_seconds =
      run_with_semaphore registered
        (call { query := query
                input_type := (match input_type with
                  | none => detect_input_type query
                  | some x => x)
                context := context }
          (timeoutOrDefault timeout_seconds)) c ∧
    dictLookup ((execute_research registered call repoConfigured repoCreate project_id
        user_id research_types query input_type context timeout_seconds save).1) c =
      some (execute_single registered call c query input_type context
        timeout_seconds) := by
  constructor
  · rfl
  · have h1 : (execute_research registered call repoConfigured repoCreate project_id
        user_id research_types query input_type context timeout_seconds save).1 =
        execute_parallel registered
          (call { query := query
                  input_type := (match input_type with
                    | none => detect_input_type query
                    | some x => x)
                  context := context }
            (timeoutOrDefault timeout_seconds)) research_types := rfl
    rw [h1, execute_parallel_lookup, if_pos hc]
    rfl

/-- C7 witness: concrete instantiation of the equivalence at a registered
category inside a two-category batch. -/
theorem C7_witness :
    execute_single (fun _ => true) (fun _ _ _ => AgentOutcome.exc "boom")
        ResearchType.market "Nike" none none none =
      run_with_semaphore (fun _ => true)
        ((fun _ _ _ => AgentOutcome.exc "boom")
          ({ query := "Nike"
             input_type := (match (none : Option InputType) with
               | none => detect_input_type "Nike"
               | some x => x)
             context := none } : ResearchInput)
          (timeoutOrDefault none)) ResearchType.market ∧
    dictLookup ((execute_research (fun _ => true) (fun _ _ _ => AgentOutcome.exc "boom")
        false (fun _ _ => Except.ok ()) "p" "u"
        [ResearchType.competitor, ResearchType.market] "Nike" none none none
        false).1) ResearchType.market =
      some (execute_single (fun _ => true) (fun _ _ _ => AgentOutcome.exc "boom")
        ResearchType.market "Nike" none none none) := by
  have h := C7_single_equals_batch_unit (fun _ => true)
    (fun _ _ _ => AgentOutcome.exc "boom") false (fun _ _ => Except.ok ()) "p" "u"
    [ResearchType.competitor, ResearchType.market] ResearchType.market "Nike"
    none none none false (by simp)
  exact ⟨h.1, h.2⟩

/-- C9: the results map returned by execute_research does not depend on the
repository behavior at all — in particular an always-erroring create yields
the very map returned with persistence disabled, and equals the raw parallel
fan-out result, so a persistence error never surfaces as an orchestration
error and never omits or alters a category. -/
theorem C9_persistence_never_alters_results
    (registered : ResearchType → Bool)
    (call : ResearchInput → Nat → ResearchType → AgentOutcome)
    (repoConfigured repoConfigured2 : Bool)
    (repoCreate repoCreate2 : ResearchType → ResearchResult → Except String Unit)
    (project_id user_id : String) (research_types : List ResearchType)
    (query : String) (input_type : Option InputType)
    (context : Option (List (String × String))) (timeout_seconds : Option Nat) :
    (execute_research registered call repoConfigured repoCreate project_id user_id
        research_types query input_type context timeout_seconds true).1 =
      (execute_research registered call repoConfigured2 repoCreate2 project_id user_id
        research_types query input_type context timeout_seconds false).1 ∧
    (execute_research registered call repoConfigured
        (fun _ _ => Except.error "storage down") project_id user_id
        research_types query input_type context timeout_seconds true).1 =
      execute_parallel registered
        (call { query := query
                input_type := (match input_type with
                  | none => detect_input_type query
                  | some x => x)
                context := context }
          (timeoutOrDefault timeout_seconds)) research_types :=
  ⟨rfl, rfl⟩

/-- Count of a predicate after updating one list position: the old occupant
leaves the count and the new one enters it. -/
theorem countP_set_get {α : Type} (p : α → Bool) :
    ∀ (l : List α) (i : Nat) (a b : α), l[i]? = some a →
      (l.set i b).countP p + (if p a then 1 else 0) =
        l.countP p + (if p b then 1 else 0) := by
  intro l
  induction l with
  | nil => intro i a b h; simp at h
  | cons x xs ih =>
    intro i a b h
    cases i with
    | zero =>
      simp only [List.getElem?_cons_zero, Option.some.injEq] at h
      rw [← h]
      simp only [List.set_cons_zero, List.countP_cons]
      cases hpx : p x <;> cases hpb : p b <;> simp [hpx, hpb] <;> omega
    | succ n =>
      simp only [List.getElem?_cons_succ] at h
      have hx := ih n a b h
      simp only [List.set_cons_succ, List.countP_cons]
      cases hpa : p a <;> cases hpb : p b <;> cases hpx : p x <;>
        simp [hpa, hpb, hpx] at hx ⊢ <;> omega

/-- Semaphore accounting invariant of the fan-out: in every reachable state the
internal counter plus the number of in-flight agent calls equals the
configured bound. -/
theorem gate_invariant {bound n : Nat} {s : GateState}
    (h : GateReachable bound n s) : s.permits + inFlight s = bound := by
  induction h with
  | init =>
    have h0 : (List.replicate n TaskPhase.waiting).countP
        (fun t => t == TaskPhase.running) = 0 := by
      apply List.countP_eq_zero.mpr
      intro a ha
      rw [List.eq_of_mem_replicate ha]
      simp
    simp only [gateInit, inFlight]
    rw [h0]
    omega
  | step _ hstep ih =>
    cases hstep with
    | acquire i hi hp =>
      have hc := countP_set_get (fun t => t == TaskPhase.running) _ i
        TaskPhase.waiting TaskPhase.running hi
      have e1 : (if (fun t => t == TaskPhase.running) TaskPhase.waiting = true
          then 1 else 0) = 0 := rfl
      have e2 : (if (fun t => t == TaskPhase.running) TaskPhase.running = true
          then 1 else 0) = 1 := rfl
      rw [e1, e2] at hc
      simp only [inFlight] at ih ⊢
      omega
    | release i hi =>
      have hc := countP_set_get (fun t => t == TaskPhase.running) _ i
        TaskPhase.running TaskPhase.done hi
      have e1 : (if (fun t => t == TaskPhase.running) TaskPhase.running = true
          then 1 else 0) = 1 := rfl
      have e2 : (if (fun t => t == TaskPhase.running) TaskPhase.done = true
          then 1 else 0) = 0 := rfl
      rw [e1, e2] at hc
      simp only [inFlight] at ih ⊢
      omega

/-- C4: with the concurrency gate sized to the configured bound, in every state
one batch fan-out of more requested categories than the bound can reach, the
number of agent research calls in flight never exceeds the bound. -/
theorem C4_in_flight_never_exceeds_bound (bound : Nat)
    (research_types : List ResearchType) (s : GateState)
    (hN : research_types.length > bound)
    (h : GateReachable bound research_types.length s) :
    inFlight s ≤ bound := by
  have := gate_invariant h
  omega

/-- C4 witness: with the default bound of 3 and four requested categories, the
state reached after one semaphore acquisition stays within the bound. -/
theorem C4_witness :
    [ResearchType.competitor, ResearchType.market, ResearchType.audience,
        ResearchType.trend].length > MAX_CONCURRENT_AGENTS ∧
    inFlight
      { permits := (gateInit MAX_CONCURRENT_AGENTS 4).permits - 1
        tasks := (gateInit MAX_CONCURRENT_AGENTS 4).tasks.set 0 TaskPhase.running } ≤
      MAX_CONCURRENT_AGENTS := by
  refine ⟨by decide, ?_⟩
  exact C4_in_flight_never_exceeds_bound MAX_CONCURRENT_AGENTS
    [ResearchType.competitor, ResearchType.market, ResearchType.audience,
      ResearchType.trend] _ (by decide)
    (GateReachable.step GateReachable.init
      (GateStep.acquire (gateInit MAX_CONCURRENT_AGENTS 4) 0 (by decide) (by decide)))

/-- Course of one per-category unit of the orchestrator when the agent is a
BaseResearchAgent: the agent call returns (with the given internal run), the
deadline expires, or an exception with the given text escapes the awaited
call before the agent converts it. -/
inductive UnitOutcome where
  | agentReturns (run : AgentRun)
  | timesOut
  | raisesOutside (msg : String)

/-- Result produced by one orchestrator unit of work composed with
BaseResearchAgent.research: every ResearchResult execute_research or
execute_single returns arises this way. -/
def unitResult (registered : ResearchType → Bool) (required_tools : List String)
    (u : UnitOutcome) (research_type : ResearchType) : ResearchResult :=
  run_with_semaphore registered
    (fun rt => match u with
      | UnitOutcome.agentReturns run =>
        AgentOutcome.ok (baseAgentResearch rt required_tools run)
      | UnitOutcome.timesOut => AgentOutcome.timeout
      | UnitOutcome.raisesOutside m => AgentOutcome.exc m)
    research_type

/-- Predicate stating that every exception text involved in an outcome is
non-empty; Python strE can be empty for a bare exception, which is the one
escape from the non-empty-error invariant. -/
def msgsNonEmpty : UnitOutcome → Prop
  | UnitOutcome.agentReturns (AgentRun.raises m _) => m ≠ ""
  | UnitOutcome.raisesOutside m => m ≠ ""
  | _ => True

/-- C8 counterexample: an agent whose internal pipeline raises an exception
with empty text yields a Failed result whose error string is present but
empty, contradicting the claim that no Failed result has an empty error
string. -/
theorem C8_counterexample :
    (unitResult (fun _ => true) [] (UnitOutcome.agentReturns (AgentRun.raises "" 0))
        ResearchType.competitor).status = ResearchStatus.failed ∧
    (unitResult (fun _ => true) [] (UnitOutcome.agentReturns (AgentRun.raises "" 0))
        ResearchType.competitor).error_message = some "" :=
  ⟨rfl, rfl⟩

/-- C8 (amended): every result of an orchestrator unit has a present error
string exactly when its status is Failed, Completed results carry no error,
and a Failed result has a non-empty error string provided the underlying
exception texts are non-empty — an exception whose text is empty produces a
Failed result whose error string is the empty string. -/
theorem C8_error_present_iff_failed (registered : ResearchType → Bool)
    (required_tools : List String) (u : UnitOutcome) (rt : ResearchType)
    (hne : msgsNonEmpty u) :
    ((unitResult registered required_tools u rt).error_message ≠ none ↔
      (unitResult registered required_tools u rt).status = ResearchStatus.failed) ∧
    ((unitResult registered required_tools u rt).status = ResearchStatus.completed →
      (unitResult registered required_tools u rt).error_message = none) ∧
    ((unitResult registered required_tools u rt).status = ResearchStatus.failed →
      ∃ e, (unitResult registered required_tools u rt).error_message = some e ∧
        e ≠ "") := by
  have hu : ("Unknown research type: " ++ researchTypeRepr rt) ≠ "" := by
    cases rt <;> decide
  cases hb : registered rt with
  | false =>
    have hr : unitResult registered required_tools u rt =
        create_error_result rt ("Unknown research type: " ++ researchTypeRepr rt) := by
      simp [unitResult, run_with_semaphore, hb]
    rw [hr]
    exact ⟨by simp [create_error_result], by simp [create_error_result],
      fun _ => ⟨_, rfl, hu⟩⟩
  | true =>
    cases u with
    | timesOut =>
      have hr : unitResult registered required_tools UnitOutcome.timesOut rt =
          create_error_result rt "Research timed out" := by
        simp [unitResult, run_with_semaphore, hb]
      rw [hr]
      exact ⟨by simp [create_error_result], by simp [create_error_result],
        fun _ => ⟨_, rfl, by decide⟩⟩
    | raisesOutside m =>
      have hr : unitResult registered required_tools (UnitOutcome.raisesOutside m) rt =
          create_error_result rt m := by
        simp [unitResult, run_with_semaphore, hb]
      rw [hr]
      exact ⟨by simp [create_error_result], by simp [create_error_result],
        fun _ => ⟨m, rfl, hne⟩⟩
    | agentReturns run =>
      have hr : unitResult registered required_tools (UnitOutcome.agentReturns run) rt =
          baseAgentResearch rt required_tools run := by
        simp [unitResult, run_with_semaphore, hb]
      rw [hr]
      cases run with
      | notConfigured =>
        exact ⟨by simp [baseAgentResearch], by simp [baseAgentResearch],
          fun _ => ⟨_, rfl, by decide⟩⟩
      | completes analysis summary sources confidence ptime =>
        exact ⟨by simp [baseAgentResearch], by simp [baseAgentResearch],
          by simp [baseAgentResearch]⟩
      | raises m ptime =>
        exact ⟨by simp [baseAgentResearch], by simp [baseAgentResearch],
          fun _ => ⟨m, rfl, hne⟩⟩

/-- C8 witness: concrete instantiation of the amended invariant at a timed-out
unit of work. -/
theorem C8_witness :
    ((unitResult (fun _ => true) [] UnitOutcome.timesOut
        ResearchType.market).error_message ≠ none ↔
      (unitResult (fun _ => true) [] UnitOutcome.timesOut
        ResearchType.market).status = ResearchStatus.failed) ∧
    ((unitResult (fun _ => true) [] UnitOutcome.timesOut
        ResearchType.market).status = ResearchStatus.failed →
      ∃ e, (unitResult (fun _ => true) [] UnitOutcome.timesOut
        ResearchType.market).error_message = some e ∧ e ≠ "") := by
  have h := C8_error_present_iff_failed (fun _ => true) [] UnitOutcome.timesOut
    ResearchType.market trivial
  exact ⟨h.1, h.2.2⟩

/-- Effect of one synthesis loop iteration on the success counter. -/
theorem synthStep_successful (acc : Synthesis × Rat) (p : ResearchType × ResearchResult) :
    (synthStep acc p).1.successful =
      acc.1.successful + (if p.2.status = ResearchStatus.completed then 1 else 0) := by
  by_cases h : p.2.status = ResearchStatus.completed <;>
    by_cases h2 : p.2.summary = "" <;> simp [synthStep, h, h2]

/-- Effect of one synthesis loop iteration on the failure counter. -/
theorem synthStep_failed (acc : Synthesis × Rat) (p : ResearchType × ResearchResult) :
    (synthStep acc p).1.failed =
      acc.1.failed + (if p.2.status = ResearchStatus.completed then 0 else 1) := by
  by_cases h : p.2.status = ResearchStatus.completed <;>
    by_cases h2 : p.2.summary = "" <;> simp [synthStep, h, h2]

/-- Effect of one synthesis loop iteration on the source total. -/
theorem synthStep_total_sources (acc : Synthesis × Rat)
    (p : ResearchType × ResearchResult) :
    (synthStep acc p).1.total_sources = acc.1.total_sources + p.2.sources.length := by
  by_cases h : p.2.status = ResearchStatus.completed <;>
    by_cases h2 : p.2.summary = "" <;> simp [synthStep, h, h2]

/-- Effect of one synthesis loop iteration on the running confidence sum. -/
theorem synthStep_csum (acc : Synthesis × Rat) (p : ResearchType × ResearchResult) :
    (synthStep acc p).2 =
      acc.2 + (if p.2.status = ResearchStatus.completed
        then p.2.confidence_score else 0) := by
  by_cases h : p.2.status = ResearchStatus.completed <;>
    by_cases h2 : p.2.summary = "" <;> simp [synthStep, h, h2]

/-- The synthesis loop never touches the average-confidence field. -/
theorem synthStep_average (acc : Synthesis × Rat) (p : ResearchType × ResearchResult) :
    (synthStep acc p).1.average_confidence = acc.1.average_confidence := by
  by_cases h : p.2.status = ResearchStatus.completed <;>
    by_cases h2 : p.2.summary = "" <;> simp [synthStep, h, h2]

/-- Folded success counter: the initial value plus the number of completed
results. -/
theorem foldl_synthStep_successful :
    ∀ (rs : List (ResearchType × ResearchResult)) (acc : Synthesis × Rat),
      ((rs.foldl synthStep acc).1).successful =
        acc.1.successful + rs.countP (fun p => p.2.status == ResearchStatus.completed) := by
  intro rs
  induction rs with
  | nil => intro acc; simp
  | cons p rest ih =>
    intro acc
    rw [List.foldl_cons, ih, synthStep_successful, List.countP_cons]
    by_cases h : p.2.status = ResearchStatus.completed <;> simp [h] <;> omega

/-- Folded failure counter: the initial value plus the number of results whose
status is not completed. -/
theorem foldl_synthStep_failed :
    ∀ (rs : List (ResearchType × ResearchResult)) (acc : Synthesis × Rat),
      ((rs.foldl synthStep acc).1).failed =
        acc.1.failed + rs.countP (fun p => !(p.2.status == ResearchStatus.completed)) := by
  intro rs
  induction rs with
  | nil => intro acc; simp
  | cons p rest ih =>
    intro acc
    rw [List.foldl_cons, ih, synthStep_failed, List.countP_cons]
    by_cases h : p.2.status = ResearchStatus.completed <;> simp [h] <;> omega

/-- Folded source total: the initial value plus the sum of source-list
lengths. -/
theorem foldl_synthStep_total_sources :
    ∀ (rs : List (ResearchType × ResearchResult)) (acc : Synthesis × Rat),
      ((rs.foldl synthStep acc).1).total_sources =
        acc.1.total_sources + (rs.map (fun p => p.2.sources.length)).sum := by
  intro rs
  induction rs with
  | nil => intro acc; simp
  | cons p rest ih =>
    intro acc
    rw [List.foldl_cons, ih, synthStep_total_sources]
    simp
    omega

/-- Folded confidence sum: the initial value plus the confidences of the
completed results. -/
theorem foldl_synthStep_csum :
    ∀ (rs : List (ResearchType × ResearchResult)) (acc : Synthesis × Rat),
      (rs.foldl synthStep acc).2 =
        acc.2 + ((rs.filter (fun p => p.2.status == ResearchStatus.completed)).map
          (fun p => p.2.confidence_score)).sum := by
  intro rs
  induction rs with
  | nil => intro acc; simp
  | cons p rest ih =>
    intro acc
    rw [List.foldl_cons, ih, synthStep_csum]
    by_cases h : p.2.status = ResearchStatus.completed
    · simp [h, List.filter_cons]
      ring
    · simp [h, List.filter_cons]

/-- The fold leaves the average-confidence field at its initial value. -/
theorem foldl_synthStep_average :
    ∀ (rs : List (ResearchType × ResearchResult)) (acc : Synthesis × Rat),
      ((rs.foldl synthStep acc).1).average_confidence = acc.1.average_confidence := by
  intro rs
  induction rs with
  | nil => intro acc; simp
  | cons p rest ih =>
    intro acc
    rw [List.foldl_cons, ih, synthStep_average]

/-- Success counter of the synthesized summary. -/
theorem synthesize_successful_eq (rs : List (ResearchType × ResearchResult)) :
    (synthesize_results rs).successful =
      rs.countP (fun p => p.2.status == ResearchStatus.completed) := by
  have hs := foldl_synthStep_successful rs (synthInit rs, 0)
  simp only [synthesize_results]
  split_ifs <;> simpa [synthInit] using hs

/-- Failure counter of the synthesized summary. -/
theorem synthesize_failed_eq (rs : List (ResearchType × ResearchResult)) :
    (synthesize_results rs).failed =
      rs.countP (fun p => !(p.2.status == ResearchStatus.completed)) := by
  have hf := foldl_synthStep_failed rs (synthInit rs, 0)
  simp only [synthesize_results]
  split_ifs <;> simpa [synthInit] using hf

/-- Source total of the synthesized summary. -/
theorem synthesize_total_sources_eq (rs : List (ResearchType × ResearchResult)) :
    (synthesize_results rs).total_sources =
      (rs.map (fun p => p.2.sources.length)).sum := by
  have ht := foldl_synthStep_total_sources rs (synthInit rs, 0)
  simp only [synthesize_results]
  split_ifs <;> simpa [synthInit] using ht

/-- Average confidence of the synthesized summary: the arithmetic mean over
completed results, and zero when none completed. -/
theorem synthesize_average_eq (rs : List (ResearchType × ResearchResult)) :
    (synthesize_results rs).average_confidence =
      if rs.countP (fun p => p.2.status == ResearchStatus.completed) = 0 then 0
      else ((rs.filter (fun p => p.2.status == ResearchStatus.completed)).map
          (fun p => p.2.confidence_score)).sum /
        ((rs.countP (fun p => p.2.status == ResearchStatus.completed) : Nat) : Rat) := by
  have hs := foldl_synthStep_successful rs (synthInit rs, 0)
  have hc := foldl_synthStep_csum rs (synthInit rs, 0)
  have ha := foldl_synthStep_average rs (synthInit rs, 0)
  rw [show (synthInit rs, (0 : Rat)).1.successful = 0 from rfl, Nat.zero_add] at hs
  rw [show (synthInit rs, (0 : Rat)).2 = 0 from rfl, zero_add] at hc
  rw [show (synthInit rs, (0 : Rat)).1.average_confidence = 0 from rfl] at ha
  simp only [synthesize_results]
  split_ifs with hpos h0
  · rw [hs] at hpos
    omega
  · show (List.foldl synthStep (synthInit rs, 0) rs).2 /
        (((List.foldl synthStep (synthInit rs, 0) rs).1.successful : Nat) : Rat) = _
    rw [hc, hs]
  · exact ha
  · rw [hs] at hpos
    omega

/-- Completed example result with confidence 0.8 from the spec example. -/
def exampleCompletedA : ResearchResult :=
  { research_type := ResearchType.competitor, analysis_data := [], summary := "a",
    sources := [], confidence_score := 4/5, tools_used := [], processing_time_ms := 0,
    status := ResearchStatus.completed, error_message := none }

/-- Completed example result with confidence 0.6 from the spec example. -/
def exampleCompletedB : ResearchResult :=
  { research_type := ResearchType.market, analysis_data := [], summary := "b",
    sources := [], confidence_score := 3/5, tools_used := [], processing_time_ms := 0,
    status := ResearchStatus.completed, error_message := none }

/-- Failed example result from the spec example. -/
def exampleFailedC : ResearchResult := create_error_result ResearchType.trend "boom"

/-- The three-entry example map of the spec example. -/
def exampleResults : List (ResearchType × ResearchResult) :=
  [(ResearchType.competitor, exampleCompletedA), (ResearchType.market, exampleCompletedB),
    (ResearchType.trend, exampleFailedC)]

/-- Result stuck in the pending status, as storage can deserialize it. -/
def pendingResult : ResearchResult :=
  { research_type := ResearchType.competitor, analysis_data := [], summary := "",
    sources := [], confidence_score := 0, tools_used := [], processing_time_ms := 0,
    status := ResearchStatus.pending, error_message := none }

/-- C5 counterexample: on a map holding one pending result, the synthesizer
counts it as failed although its status is not Failed, so failed does not
equal the number of results with status Failed. -/
theorem C5_counterexample :
    (synthesize_results [(ResearchType.competitor, pendingResult)]).failed = 1 ∧
    [(ResearchType.competitor, pendingResult)].countP
      (fun p => p.2.status == ResearchStatus.failed) = 0 := by
  constructor
  · rw [synthesize_failed_eq]
    decide
  · decide

/-- C5 (amended): for every map of results, the synthesizer counts successes
as the results with status Completed, counts as failed every result whose
status is NOT Completed (not only status Failed), sums source-list lengths
over all results, and averages confidence over completed results only with
average zero when none completed; on the spec example map the counts are 2
and 1 and the average is 0.7. -/
theorem C5_synthesis_statistics (rs : List (ResearchType × ResearchResult)) :
    (synthesize_results rs).successful =
      rs.countP (fun p => p.2.status == ResearchStatus.completed) ∧
    (synthesize_results rs).failed =
      rs.countP (fun p => !(p.2.status == ResearchStatus.completed)) ∧
    (synthesize_results rs).total_sources =
      (rs.map (fun p => p.2.sources.length)).sum ∧
    (synthesize_results rs).average_confidence =
      (if rs.countP (fun p => p.2.status == ResearchStatus.completed) = 0 then 0
       else ((rs.filter (fun p => p.2.status == ResearchStatus.completed)).map
          (fun p => p.2.confidence_score)).sum /
        ((rs.countP (fun p => p.2.status == ResearchStatus.completed) : Nat) : Rat)) ∧
    (synthesize_results exampleResults).successful = 2 ∧
    (synthesize_results exampleResults).failed = 1 ∧
    (synthesize_results exampleResults).average_confidence = 7/10 := by
  refine ⟨synthesize_successful_eq rs, synthesize_failed_eq rs,
    synthesize_total_sources_eq rs, synthesize_average_eq rs, ?_, ?_, ?_⟩
  · rw [synthesize_successful_eq]
    decide
  · rw [synthesize_failed_eq]
    decide
  · rw [synthesize_average_eq]
    have h2 : exampleResults.countP
        (fun p => p.2.status == ResearchStatus.completed) = 2 := by decide
    have h3 : (exampleResults.filter
          (fun p => p.2.status == ResearchStatus.completed)).map
        (fun p => p.2.confidence_score) = [4/5, 3/5] := rfl
    rw [h2, h3]
    norm_num

/-- Modelled from the spec, as amended: the classifier lowercases the trimmed
query and then applies the claimed cascade, so every match (URL markers,
video hosts, keywords, token count) is performed on the lowercased text. -/
def detectInputTypeAmended (query : String) : InputType :=
  let t := pyLower (pyTrim query)
  if pyStarts t "http://" || pyStarts t "https://" || pyStarts t "www." then
    if pyContains t "youtube.com" || pyContains t "youtu.be" then InputType.video_url
    else InputType.url
  else if ["trend", "trends", "market for", "industry"].any (fun w => pyContains t w) then
    InputType.topic
  else if (pySplit t).length ≤ 3 then
    InputType.brand_name
  else
    InputType.text

/-- C6 counterexample: the code classifies HTTP://EXAMPLE.COM as URL because it
lowercases before the URL-marker check, while the cascade as claimed (URL
markers matched on the trimmed string as written, case-insensitivity only for
keyword matching) classifies the same input as BrandName. -/
theorem C6_counterexample :
    detect_input_type "HTTP://EXAMPLE.COM" = InputType.url ∧
    detectInputTypeClaimed "HTTP://EXAMPLE.COM" = InputType.brand_name ∧
    InputType.url ≠ InputType.brand_name :=
  ⟨by decide, by decide, by decide⟩

/-- C6 (amended): the classifier equals the claimed first-match cascade applied
after lowercasing the trimmed query, and the four spec examples classify as
URL, BrandName, Topic and Text, with a video URL example classifying as
VideoURL. -/
theorem C6_classifier_cascade (s : String) :
    detect_input_type s = detectInputTypeAmended s ∧
    detect_input_type "https://example.com" = InputType.url ∧
    detect_input_type "Nike" = InputType.brand_name ∧
    detect_input_type "market for running shoes" = InputType.topic ∧
    detect_input_type "a long freeform question about shoes and culture" =
      InputType.text ∧
    detect_input_type "https://youtu.be/abc" = InputType.video_url :=
  ⟨rfl, by decide, by decide, by decide, by decide, by decide⟩

/-- C10: every query that strips to the empty string is classified BrandName:
the empty string matches no URL marker and no keyword, and it splits into
zero whitespace-delimited tokens, which passes the at-most-3-tokens branch. -/
theorem C10_blank_query_maps_to_brand_name (s : String) (h : pyTrim s = "") :
    detect_input_type s = InputType.brand_name := by
  unfold detect_input_type
  rw [h]
  decide

/-- C10 witness: a whitespace-only query strips to empty and is classified
BrandName. -/
theorem C10_witness :
    pyTrim "   " = "" ∧ detect_input_type "   " = InputType.brand_name :=
  ⟨by decide, C10_blank_query_maps_to_brand_name "   " (by decide)⟩

end ResearchHub
